import Mathlib

/-!
Shallow embedding of `gilknocker` (src/lib.rs): a GIL-contention monitor.
Durations are modelled in whole microseconds as `Nat` (the Rust code converts
every duration through `Duration::as_micros` at each decision point).
The `f32` contention metric is modelled by `F32`: a finite rational, or the
IEEE non-finite results `nan` (0/0) and `inf` (x/0, x ≠ 0) that an unguarded
float division can produce.
-/

namespace Gilknocker

/-- Model of the `f32` values the program can publish: finite values as
rationals, plus the two non-finite outcomes of float division. -/
inductive F32 where
  | finite (q : ℚ)
  | nan
  | inf
deriving DecidableEq

/-- IEEE float division of two nonnegative integer microsecond counts, as the
Rust expression `a as f32 / b as f32`: `0/0 = NaN`, `x/0 = +inf` for `x ≠ 0`,
otherwise the exact ratio. -/
def fdivNat (a b : Nat) : F32 :=
  if b = 0 then (if a = 0 then F32.nan else F32.inf) else F32.finite ((a : ℚ) / (b : ℚ))

/-- Messages to the monitoring thread (`enum Message` in src/lib.rs). -/
inductive Message where
  | stopMsg
  | resetMsg
deriving DecidableEq

/-- The monitor thread spawned by `start`, seen from the controller: the only
observable the controller uses is `JoinHandle::is_finished`, modelled by the
time (µs after `stop` begins polling) at which the thread exits. -/
structure MonitorThread where
  finishTime : Nat
deriving DecidableEq

/-- The `KnockKnock` pyclass state. `handle`, `tx`, `rx` are the
`Option<JoinHandle>`, `Option<Sender>`, `Option<Receiver>` fields (channels
modelled by presence only); durations are in microseconds. -/
structure KnockKnock where
  handle : Option MonitorThread
  tx : Bool
  rx : Bool
  contention_metric : F32
  polling_interval : Nat
  sampling_interval : Nat
  sleeping_interval : Nat
  timeout : Nat
deriving DecidableEq

/-- `KnockKnock::__new__` (src/lib.rs lines 80-108): fills the four intervals
from the optional arguments and defaults, leaves the rest at `Default`
(`None` handle/channels, metric 0), and returns `Ok` on every path. -/
def knockKnockNew (polling_interval_micros sampling_interval_micros
    sleeping_interval_micros timeout_micros : Option Nat) :
    Except String KnockKnock :=
  let polling_interval := polling_interval_micros.getD 1000
  let sampling_interval := sampling_interval_micros.getD (polling_interval * 10)
  let sleeping_interval := sleeping_interval_micros.getD (polling_interval * 100)
  let timeout :=
    match timeout_micros with
    | some micros => micros
    | none => max sampling_interval sleeping_interval + 1000
  Except.ok
    { handle := none
      tx := false
      rx := false
      contention_metric := F32.finite 0
      polling_interval := polling_interval
      sampling_interval := sampling_interval
      sleeping_interval := sleeping_interval
      timeout := timeout }

/-- `KnockKnock::is_running` (src/lib.rs lines 226-228): `self.handle.is_some()`. -/
def KnockKnock.is_running (kk : KnockKnock) : Bool :=
  kk.handle.isSome

/-- Result `(time_waiting, time_sampling)` of one sampling-window thread
(src/lib.rs line 182), in microseconds. -/
structure WindowResult where
  time_waiting : Nat
  time_sampling : Nat
deriving DecidableEq

/-- State local to the monitor loop (src/lib.rs lines 167-218):
the two running totals, the shared published metric, and the optional
in-flight sampling-window handle carrying the result it will return. -/
structure LoopState where
  total_time_waiting : Nat
  total_time_sampling : Nat
  contention_metric : F32
  handle : Option WindowResult
deriving DecidableEq

/-- What `recv.recv_timeout(sleeping_interval)` returned this iteration,
together with the environment facts the iteration consumes: on `Timeout`,
whether the in-flight window's `is_finished()` observation is true, and the
result a freshly spawned window would eventually produce. -/
inductive LoopEvent where
  | recvMsg (m : Message)
  | recvDisconnected
  | recvTimeout (windowFinished : Bool) (fresh : WindowResult)
deriving DecidableEq

/-- Outcome of one monitor-loop iteration: exit the loop, or continue with a
new state; `ack` records whether `send.send(Ack)` ran, `spawned` whether
`sample_gil()` was called this iteration. -/
inductive StepOut where
  | exitLoop
  | next (s : LoopState) (ack : Bool) (spawned : Bool)
deriving DecidableEq

/-- One iteration of the monitor loop's `match recv.recv_timeout(...)`
(src/lib.rs lines 188-217). `Stop` and channel disconnection exit the loop;
`Reset` zeroes totals and metric and acks; on a timeout, a finished window is
joined and folded and the metric republished as
`total_time_waiting as f32 / total_time_sampling as f32`, while an absent
window is replaced by a fresh `sample_gil()` spawn. -/
def loopStep (s : LoopState) (ev : LoopEvent) : StepOut :=
  match ev with
  | LoopEvent.recvMsg Message.stopMsg => StepOut.exitLoop
  | LoopEvent.recvMsg Message.resetMsg =>
      StepOut.next
        { s with
          total_time_waiting := 0
          total_time_sampling := 0
          contention_metric := F32.finite 0 } true false
  | LoopEvent.recvDisconnected => StepOut.exitLoop
  | LoopEvent.recvTimeout windowFinished fresh =>
      match s.handle with
      | some res =>
          if windowFinished then
            let tw := s.total_time_waiting + res.time_waiting
            let ts := s.total_time_sampling + res.time_sampling
            StepOut.next
              { total_time_waiting := tw
                total_time_sampling := ts
                contention_metric := fdivNat tw ts
                handle := none } false false
          else
            StepOut.next s false false
      | none =>
          StepOut.next { s with handle := some fresh } false true

/-- Loop state right after `let mut handle = Some(sample_gil());`
(src/lib.rs lines 168-186): zero totals, metric cell freshly zeroed by
`start`, one window already in flight. -/
def initialLoopState (w0 : WindowResult) : LoopState :=
  { total_time_waiting := 0
    total_time_sampling := 0
    contention_metric := F32.finite 0
    handle := some w0 }

/-- Number of sampling windows in flight. -/
def inFlight (s : LoopState) : Nat :=
  match s.handle with
  | none => 0
  | some _ => 1

/-- The states the loop passes through while consuming the given events
(stopping at loop exit). -/
def runLoop (s : LoopState) : List LoopEvent → List LoopState
  | [] => []
  | ev :: evs =>
      match loopStep s ev with
      | StepOut.exitLoop => []
      | StepOut.next s1 _ _ => s1 :: runLoop s1 evs

/-- Wall-clock reading (µs) at the `time_sampling.elapsed()` check opening
iteration `k` of the sampling-window loop: iteration `i` spends `waits i`
acquiring the GIL, `polling` asleep, and `slacks i` of scheduling slack. -/
def elapsedAfter (polling : Nat) (waits slacks : Nat → Nat) : Nat → Nat
  | 0 => 0
  | k + 1 => elapsedAfter polling waits slacks k + waits k + polling + slacks k

/-- Total GIL-wait time accumulated by the first `k` probes. -/
def waitSum (waits : Nat → Nat) : Nat → Nat
  | 0 => 0
  | k + 1 => waitSum waits k + waits k

/-- The sampling-window loop body of `sample_gil` (src/lib.rs lines 172-183):
while the elapsed clock is below `sampling`, probe the GIL (adding `waits k`
to `time_waiting`), sleep `polling`, and advance the clock; on exit return
`(time_waiting, time_sampling.elapsed())`. `fuel` bounds the iterations
modelled; `none` means the loop was still running after `fuel` checks. -/
def sampleGilAux (sampling polling : Nat) (waits slacks : Nat → Nat) :
    Nat → Nat → Nat → Nat → Option (Nat × Nat)
  | 0, _, _, _ => none
  | fuel + 1, k, elapsed, time_waiting =>
      if elapsed < sampling then
        sampleGilAux sampling polling waits slacks fuel (k + 1)
          (elapsed + waits k + polling + slacks k) (time_waiting + waits k)
      else
        some (time_waiting, elapsed)

/-- `sample_gil` run from a fresh `Instant::now()` with zero accumulated
wait time. -/
def sampleGil (sampling polling : Nat) (waits slacks : Nat → Nat)
    (fuel : Nat) : Option (Nat × Nat) :=
  sampleGilAux sampling polling waits slacks fuel 0 0 0

/-- The wait-and-poll loop of `KnockKnock::stop` (src/lib.rs lines 239-246):
while the thread has not finished, issue a `PyUserWarning` whenever the
elapsed time strictly exceeds `timeout`, then sleep 100ms and poll again.
Returns the number of warnings issued; the loop exits only once the thread
has finished. -/
def stopLoop (timeout : Nat) (m : MonitorThread) (elapsed warns : Nat) : Nat :=
  if m.finishTime ≤ elapsed then warns
  else
    stopLoop timeout m (elapsed + 100000)
      (if timeout < elapsed then warns + 1 else warns)
termination_by m.finishTime - elapsed
decreasing_by
  omega

/-- `KnockKnock::stop` (src/lib.rs lines 231-251): take the handle (leaving
`None`); if it was present, take `tx`, send `Stop`, run the wait-and-poll
loop, join (ignoring a panic), and return `Ok(())` — the only return value on
every path. `PyErr::warn` is modelled as incrementing the returned warning
count (it raises only under non-default Python warning filters). -/
def KnockKnock.stop (kk : KnockKnock) : Except String (KnockKnock × Nat) :=
  match kk.handle with
  | none => Except.ok (kk, 0)
  | some m =>
      let kk1 := { kk with handle := none, tx := false }
      if kk.tx then Except.ok (kk1, stopLoop kk.timeout m 0 0)
      else Except.ok (kk1, 0)

/-- `KnockKnock::reset_contention_metric` (src/lib.rs lines 120-141): when
`tx` is present, send `Reset` (warn if the channel is closed: `sendOk`
false) and wait up to `timeout` for the ack (warn on timeout/disconnect:
`ackOk` false); in every case zero the local metric and return `Ok(())`. -/
def reset_contention_metric (kk : KnockKnock) (sendOk ackOk : Bool) :
    Except String (KnockKnock × Nat) :=
  let warns :=
    if kk.tx then (if sendOk then 0 else 1) + (if ackOk then 0 else 1) else 0
  Except.ok ({ kk with contention_metric := F32.finite 0 }, warns)

/-- Effect of `KnockKnock::start` (src/lib.rs lines 144-222) on the pyclass
fields: fresh channels stored in `tx`/`rx`, a fresh metric cell holding 0,
and the spawned monitor thread's handle stored in `handle`. -/
def KnockKnock.start (kk : KnockKnock) (m : MonitorThread) : KnockKnock :=
  { kk with
    handle := some m
    tx := true
    rx := true
    contention_metric := F32.finite 0 }

/-- The `KnockKnock` produced by `__new__` with every argument omitted. -/
def defaultKK : KnockKnock :=
  { handle := none
    tx := false
    rx := false
    contention_metric := F32.finite 0
    polling_interval := 1000
    sampling_interval := 10000
    sleeping_interval := 100000
    timeout := 101000 }

/-- C1 counterexample: a configuration with `timeout = 5000µs`, well below
`polling + sampling = 11000µs`, is still accepted — `__new__` performs no
validation and returns `Ok` rather than an InvalidConfiguration error. -/
theorem C1_counterexample :
    (5000 : Nat) ≤ 1000 + 10000 ∧
    (knockKnockNew (some 1000) (some 10000) (some 10000) (some 5000)).isOk = true := by
  exact ⟨by norm_num, rfl⟩

/-- C1 (amended): construction succeeds for every combination of arguments;
no relationship between `timeout` and the other intervals is checked. -/
theorem C1_construction_always_succeeds
    (polling_interval_micros sampling_interval_micros
      sleeping_interval_micros timeout_micros : Option Nat) :
    (knockKnockNew polling_interval_micros sampling_interval_micros
      sleeping_interval_micros timeout_micros).isOk = true := by
  rfl

/-- C5 counterexample: the all-defaults construction yields
`timeout = 101000µs`, which is not `polling + sampling + 1s = 1011000µs` as
the claim states (the slack is 1ms added to `max(sampling, sleeping)`). -/
theorem C5_counterexample :
    knockKnockNew none none none none = Except.ok defaultKK ∧
    defaultKK.timeout ≠ defaultKK.polling_interval + defaultKK.sampling_interval + 1000000 := by
  exact ⟨rfl, by norm_num [defaultKK]⟩

/-- C5 (amended): the defaults are `polling = 1000µs`,
`sampling = 10 × polling`, `sleeping = 100 × polling`, and
`timeout = max(sampling, sleeping) + 1000µs` (1ms of slack, not 1s);
with all arguments omitted this gives `(1000, 10000, 100000, 101000)`. -/
theorem C5_defaults :
    knockKnockNew none none none none = Except.ok defaultKK ∧
    (∀ p, ∃ kk, knockKnockNew (some p) none none none = Except.ok kk ∧
      kk.polling_interval = p ∧ kk.sampling_interval = p * 10 ∧
      kk.sleeping_interval = p * 100 ∧
      kk.timeout = max (p * 10) (p * 100) + 1000) ∧
    (∀ p s sl, ∃ kk,
      knockKnockNew (some p) (some s) (some sl) none = Except.ok kk ∧
      kk.timeout = max s sl + 1000) := by
  refine ⟨rfl, fun p => ⟨_, rfl, rfl, rfl, rfl, rfl⟩, fun p s sl => ⟨_, rfl, rfl⟩⟩

/-- C3 counterexample: on a freshly constructed `KnockKnock` (no `start`
ever called, so `handle` and `tx` are `None`), both `stop` and
`reset_contention_metric` return `Ok` — neither raises InvalidState. -/
theorem C3_counterexample :
    knockKnockNew none none none none = Except.ok defaultKK ∧
    defaultKK.stop = Except.ok (defaultKK, 0) ∧
    reset_contention_metric defaultKK true true = Except.ok (defaultKK, 0) := by
  exact ⟨rfl, rfl, rfl⟩

/-- C3 (amended): before `start` has ever been called (`handle = None`,
`tx = None`), `stop` is a successful no-op and `reset_contention_metric`
successfully zeroes the local metric with no warnings; neither fails. -/
theorem C3_before_start_succeeds (kk : KnockKnock)
    (hh : kk.handle = none) (htx : kk.tx = false) :
    kk.stop = Except.ok (kk, 0) ∧
    (∀ sendOk ackOk, reset_contention_metric kk sendOk ackOk =
      Except.ok ({ kk with contention_metric := F32.finite 0 }, 0)) := by
  constructor
  · simp [KnockKnock.stop, hh]
  · intro sendOk ackOk
    simp [reset_contention_metric, htx]

/-- C3 witness: the amended statement instantiated at the default
construction. -/
theorem C3_before_start_succeeds_witness :
    defaultKK.stop = Except.ok (defaultKK, 0) ∧
    (∀ sendOk ackOk, reset_contention_metric defaultKK sendOk ackOk =
      Except.ok ({ defaultKK with contention_metric := F32.finite 0 }, 0)) :=
  C3_before_start_succeeds defaultKK rfl rfl

/-- C8: the `Reset` branch of the monitor loop zeroes both running totals,
zeroes the published metric, sends the `Ack`, keeps looping (does not exit),
and leaves the in-flight window handle exactly as it was, spawning nothing. -/
theorem C8_reset_branch (s : LoopState) :
    loopStep s (LoopEvent.recvMsg Message.resetMsg) =
      StepOut.next
        { total_time_waiting := 0
          total_time_sampling := 0
          contention_metric := F32.finite 0
          handle := s.handle } true false :=
  rfl

/-- Loop state with a just-finished degenerate window (reachable with
`sampling_interval = 0`, whose window exits before a whole microsecond
elapses): both of its durations truncate to 0µs. -/
def zeroWindowState : LoopState :=
  { total_time_waiting := 0
    total_time_sampling := 0
    contention_metric := F32.finite 0
    handle := some ⟨0, 0⟩ }

/-- C4 counterexample: reconciling a finished window when the accumulated
`total_time_sampling` is 0µs performs the division anyway and publishes
`0/0 = NaN`; the metric is not left at its prior value (`0`). -/
theorem C4_counterexample :
    loopStep zeroWindowState (LoopEvent.recvTimeout true ⟨0, 0⟩) =
      StepOut.next
        { total_time_waiting := 0
          total_time_sampling := 0
          contention_metric := F32.nan
          handle := none } false false ∧
    F32.nan ≠ zeroWindowState.contention_metric := by
  exact ⟨rfl, by simp [zeroWindowState]⟩

/-- C4 (amended): the division is unguarded — reconciling always publishes
`total_time_waiting as f32 / total_time_sampling as f32`; when the
accumulated `total_time_sampling` is 0µs this is the float
division-by-zero result (NaN if the numerator is also 0, +inf otherwise),
not the prior metric value. -/
theorem C4_division_unguarded (s : LoopState) (res fresh : WindowResult)
    (hh : s.handle = some res) :
    loopStep s (LoopEvent.recvTimeout true fresh) =
      StepOut.next
        { total_time_waiting := s.total_time_waiting + res.time_waiting
          total_time_sampling := s.total_time_sampling + res.time_sampling
          contention_metric := fdivNat (s.total_time_waiting + res.time_waiting)
            (s.total_time_sampling + res.time_sampling)
          handle := none } false false ∧
    fdivNat 0 0 = F32.nan ∧
    (∀ a, a ≠ 0 → fdivNat a 0 = F32.inf) := by
  refine ⟨?_, rfl, fun a ha => ?_⟩
  · simp [loopStep, hh]
  · simp [fdivNat, ha]

/-- C4 witness: the amended statement instantiated at the degenerate
zero-duration window. -/
theorem C4_division_unguarded_witness :
    loopStep zeroWindowState (LoopEvent.recvTimeout true ⟨0, 0⟩) =
      StepOut.next
        { total_time_waiting := zeroWindowState.total_time_waiting + 0
          total_time_sampling := zeroWindowState.total_time_sampling + 0
          contention_metric := fdivNat (zeroWindowState.total_time_waiting + 0)
            (zeroWindowState.total_time_sampling + 0)
          handle := none } false false ∧
    fdivNat 0 0 = F32.nan ∧
    (∀ a, a ≠ 0 → fdivNat a 0 = F32.inf) :=
  C4_division_unguarded zeroWindowState ⟨0, 0⟩ ⟨0, 0⟩ rfl

/-- A mid-run loop state with one window in flight, used as a concrete
reconciliation input. -/
def reconKK : LoopState :=
  { total_time_waiting := 3
    total_time_sampling := 7
    contention_metric := fdivNat 3 7
    handle := some ⟨1, 2⟩ }

/-- C6 counterexample: the iteration that reconciles a finished window ends
with `handle = none` and its spawn flag `false` — no new window is launched
in that iteration; the loop first returns to `recv_timeout` (an intervening
wait on the control channel). -/
theorem C6_counterexample :
    loopStep reconKK (LoopEvent.recvTimeout true ⟨5, 5⟩) =
      StepOut.next
        { total_time_waiting := 4
          total_time_sampling := 9
          contention_metric := fdivNat 4 9
          handle := none } false false :=
  rfl

/-- C6 (amended): reconciling a finished window leaves no window in flight
and spawns nothing in the same iteration; a new window is launched only on a
subsequent control-channel timeout that finds `handle = None`. -/
theorem C6_respawn_after_wait (s : LoopState) (res fresh : WindowResult)
    (hh : s.handle = some res) :
    (∃ s1, loopStep s (LoopEvent.recvTimeout true fresh) =
        StepOut.next s1 false false ∧ s1.handle = none) ∧
    (∀ s2 : LoopState, s2.handle = none → ∀ fin fresh2,
      loopStep s2 (LoopEvent.recvTimeout fin fresh2) =
        StepOut.next { s2 with handle := some fresh2 } false true) := by
  constructor
  · refine ⟨{ total_time_waiting := s.total_time_waiting + res.time_waiting
              total_time_sampling := s.total_time_sampling + res.time_sampling
              contention_metric := fdivNat (s.total_time_waiting + res.time_waiting)
                (s.total_time_sampling + res.time_sampling)
              handle := none }, ?_, rfl⟩
    simp [loopStep, hh]
  · intro s2 h2 fin fresh2
    simp [loopStep, h2]

/-- C6 witness: the amended statement at the concrete mid-run state. -/
theorem C6_respawn_after_wait_witness :
    (∃ s1, loopStep reconKK (LoopEvent.recvTimeout true ⟨5, 5⟩) =
        StepOut.next s1 false false ∧ s1.handle = none) ∧
    (∀ s2 : LoopState, s2.handle = none → ∀ fin fresh2,
      loopStep s2 (LoopEvent.recvTimeout fin fresh2) =
        StepOut.next { s2 with handle := some fresh2 } false true) :=
  C6_respawn_after_wait reconKK ⟨1, 2⟩ ⟨5, 5⟩ rfl

/-- Every loop state holds at most one window handle. -/
theorem inFlight_le_one (s : LoopState) : inFlight s ≤ 1 := by
  unfold inFlight
  cases s.handle <;> simp

/-- C9: at most one sampling window is ever in flight — the loop starts with
exactly one, every reachable state along any run holds at most one, and an
iteration spawns a window only when none is held (and then holds exactly the
fresh one). -/
theorem C9_at_most_one_window (w0 : WindowResult) (evs : List LoopEvent)
    (s : LoopState) (ev : LoopEvent) (s1 : LoopState) (ack spawned : Bool)
    (hstep : loopStep s ev = StepOut.next s1 ack spawned) :
    inFlight (initialLoopState w0) = 1 ∧
    (∀ s2, s2 ∈ runLoop (initialLoopState w0) evs → inFlight s2 ≤ 1) ∧
    inFlight s1 ≤ 1 ∧
    (spawned = true → s.handle = none ∧
      ∃ fin fresh, ev = LoopEvent.recvTimeout fin fresh ∧ s1.handle = some fresh) := by
  refine ⟨rfl, fun s2 _ => inFlight_le_one s2, inFlight_le_one s1, ?_⟩
  intro hsp
  subst hsp
  cases ev with
  | recvMsg m =>
      exfalso
      cases m <;> simp [loopStep] at hstep
  | recvDisconnected =>
      exfalso
      simp [loopStep] at hstep
  | recvTimeout fin fresh =>
      cases hhandle : s.handle with
      | some res =>
          exfalso
          cases fin <;> simp [loopStep, hhandle] at hstep
      | none =>
          refine ⟨rfl, fin, fresh, rfl, ?_⟩
          simp only [loopStep, hhandle] at hstep
          cases hstep
          rfl

/-- A loop state with no window in flight. -/
def idleState : LoopState :=
  { total_time_waiting := 0
    total_time_sampling := 0
    contention_metric := F32.finite 0
    handle := none }

/-- C9 witness: the invariant statement at a concrete spawning iteration. -/
theorem C9_at_most_one_window_witness :
    inFlight (initialLoopState ⟨1, 2⟩) = 1 ∧
    (∀ s2, s2 ∈ runLoop (initialLoopState ⟨1, 2⟩)
      [LoopEvent.recvMsg Message.resetMsg] → inFlight s2 ≤ 1) ∧
    inFlight { idleState with handle := some ⟨9, 9⟩ } ≤ 1 ∧
    (true = true → idleState.handle = none ∧
      ∃ fin fresh, LoopEvent.recvTimeout false ⟨9, 9⟩ = LoopEvent.recvTimeout fin fresh ∧
        LoopState.handle { idleState with handle := some ⟨9, 9⟩ } = some fresh) :=
  C9_at_most_one_window ⟨1, 2⟩ [LoopEvent.recvMsg Message.resetMsg] idleState
    (LoopEvent.recvTimeout false ⟨9, 9⟩) { idleState with handle := some ⟨9, 9⟩ }
    false true rfl

/-- Every call of `stopLoop` returns at least the warnings already
accumulated. -/
theorem stopLoop_le (timeout : Nat) (m : MonitorThread) :
    ∀ d elapsed warns, m.finishTime - elapsed ≤ d →
      warns ≤ stopLoop timeout m elapsed warns := by
  intro d
  induction d with
  | zero =>
      intro elapsed warns h
      rw [stopLoop]
      have hf : m.finishTime ≤ elapsed := by omega
      simp [hf]
  | succ n ih =>
      intro elapsed warns h
      rw [stopLoop]
      by_cases hf : m.finishTime ≤ elapsed
      · simp [hf]
      · simp only [if_neg hf]
        refine le_trans ?_ (ih (elapsed + 100000) _ (by omega))
        split <;> omega

/-- If the monitor thread outlives `timeout` by more than one 100ms poll
period, the wait-and-poll loop issues at least one warning before it
returns. -/
theorem stopLoop_warns (timeout : Nat) (m : MonitorThread)
    (hlate : timeout + 100000 < m.finishTime) :
    ∀ d elapsed warns, m.finishTime - elapsed ≤ d → elapsed < m.finishTime →
      1 ≤ stopLoop timeout m elapsed warns := by
  intro d
  induction d with
  | zero =>
      intro elapsed warns h hlt
      omega
  | succ n ih =>
      intro elapsed warns h hlt
      rw [stopLoop]
      have hf : ¬ m.finishTime ≤ elapsed := by omega
      simp only [if_neg hf]
      by_cases ht : timeout < elapsed
      · simp only [if_pos ht]
        calc (1 : Nat) ≤ warns + 1 := by omega
          _ ≤ stopLoop timeout m (elapsed + 100000) (warns + 1) :=
            stopLoop_le timeout m (m.finishTime - (elapsed + 100000)) _ _ le_rfl
      · simp only [if_neg ht]
        exact ih (elapsed + 100000) warns (by omega) (by omega)

/-- A monitor thread that exits 300ms after `stop` starts polling. -/
def stopThread : MonitorThread := ⟨300000⟩

/-- A running `KnockKnock` whose `timeout` (100µs) is far below the time its
monitor thread takes to exit. -/
def stopKK : KnockKnock :=
  { defaultKK with handle := some stopThread, tx := true, rx := true, timeout := 100 }

/-- The wait-and-poll loop for `stopKK`: two warnings (at elapsed 100ms and
200ms), and it still waits to 300ms and returns. -/
theorem stopLoop_eval : stopLoop 100 stopThread 0 0 = 2 := by
  rw [stopLoop]
  norm_num [stopThread]
  rw [stopLoop]
  norm_num
  rw [stopLoop]
  norm_num
  rw [stopLoop]
  norm_num

/-- C2 counterexample: the monitor thread does not exit within `timeout`
(100µs, with the thread taking 300ms), yet `stop` returns `Ok` — it issues
two `PyUserWarning`s while continuing to wait, rather than failing with a
Timeout error. -/
theorem C2_counterexample :
    stopKK.timeout < stopThread.finishTime ∧
    stopKK.stop = Except.ok ({ stopKK with handle := none, tx := false }, 2) := by
  constructor
  · norm_num [stopKK, stopThread, defaultKK]
  · simp [KnockKnock.stop, stopKK, stopLoop_eval]

/-- C2 (amended): when the monitor thread has not exited within `timeout`
(by more than one 100ms poll period), `stop` does not fail — it issues at
least one `PyUserWarning` and keeps polling until the thread exits, then
returns `Ok`. -/
theorem C2_stop_warns_not_fails (kk : KnockKnock) (m : MonitorThread)
    (hh : kk.handle = some m) (htx : kk.tx = true)
    (hlate : kk.timeout + 100000 < m.finishTime) :
    kk.stop = Except.ok ({ kk with handle := none, tx := false },
      stopLoop kk.timeout m 0 0) ∧
    1 ≤ stopLoop kk.timeout m 0 0 := by
  constructor
  · simp [KnockKnock.stop, hh, htx]
  · exact stopLoop_warns kk.timeout m hlate m.finishTime 0 0 (by omega) (by omega)

/-- C2 witness: the amended statement at the concrete late-exiting thread. -/
theorem C2_stop_warns_not_fails_witness :
    stopKK.stop = Except.ok ({ stopKK with handle := none, tx := false },
      stopLoop stopKK.timeout stopThread 0 0) ∧
    1 ≤ stopLoop stopKK.timeout stopThread 0 0 :=
  C2_stop_warns_not_fails stopKK stopThread rfl rfl
    (by norm_num [stopKK, stopThread, defaultKK])

/-- Soundness of the sampling-window loop: whenever it returns
`(time_waiting, time_elapsed)`, the pair is the wait-sum and the wall-clock
reading after the least number of probes whose elapsed time reaches
`sampling`. -/
theorem sampleGilAux_sound (sampling polling : Nat) (waits slacks : Nat → Nat) :
    ∀ fuel k elapsed acc tw te,
      elapsed = elapsedAfter polling waits slacks k →
      acc = waitSum waits k →
      (∀ j, j < k → elapsedAfter polling waits slacks j < sampling) →
      sampleGilAux sampling polling waits slacks fuel k elapsed acc = some (tw, te) →
      ∃ n, tw = waitSum waits n ∧ te = elapsedAfter polling waits slacks n ∧
        sampling ≤ te ∧ ∀ j, j < n → elapsedAfter polling waits slacks j < sampling := by
  intro fuel
  induction fuel with
  | zero =>
      intro k elapsed acc tw te _ _ _ h
      simp [sampleGilAux] at h
  | succ n ih =>
      intro k elapsed acc tw te he hacc hlt h
      rw [sampleGilAux] at h
      by_cases hc : elapsed < sampling
      · rw [if_pos hc] at h
        refine ih (k + 1) _ _ tw te ?_ ?_ ?_ h
        · rw [he]
          simp [elapsedAfter]
        · rw [hacc]
          simp [waitSum]
        · intro j hj
          rcases Nat.lt_succ_iff_lt_or_eq.mp hj with hj2 | hj2
          · exact hlt j hj2
          · rw [hj2, ← he]
            exact hc
      · rw [if_neg hc] at h
        injection h with h1
        obtain ⟨h2, h3⟩ := Prod.mk.inj h1
        subst h2
        subst h3
        exact ⟨k, hacc, he, by omega, hlt⟩

/-- C7: a sampling window probes then sleeps `polling` per iteration, summing
the probe wait durations, and stops at the first check where the measured
elapsed clock has reached `sampling` — returning that wait-sum together with
the actual measured elapsed time (`≥ sampling`); and the loop's reconcile
step folds exactly that measured `time_sampling` (not the configured
`sampling_interval`) into `total_time_sampling`. -/
theorem C7_window_contract (sampling polling fuel tw te : Nat)
    (waits slacks : Nat → Nat) (s : LoopState) (res fresh : WindowResult)
    (hrun : sampleGil sampling polling waits slacks fuel = some (tw, te))
    (hh : s.handle = some res) :
    (sampling ≤ te ∧
      ∃ n, tw = waitSum waits n ∧ te = elapsedAfter polling waits slacks n ∧
        ∀ j, j < n → elapsedAfter polling waits slacks j < sampling) ∧
    loopStep s (LoopEvent.recvTimeout true fresh) =
      StepOut.next
        { total_time_waiting := s.total_time_waiting + res.time_waiting
          total_time_sampling := s.total_time_sampling + res.time_sampling
          contention_metric := fdivNat (s.total_time_waiting + res.time_waiting)
            (s.total_time_sampling + res.time_sampling)
          handle := none } false false := by
  obtain ⟨n, h1, h2, h3, h4⟩ :=
    sampleGilAux_sound sampling polling waits slacks fuel 0 0 0 tw te rfl rfl
      (by intro j hj; omega) hrun
  exact ⟨⟨h3, n, h1, h2, h4⟩, by simp [loopStep, hh]⟩

/-- C7 witness: a concrete window (`sampling = 10µs`, `polling = 3µs`, every
probe waiting 2µs) returning `(4, 10)`, folded at the concrete mid-run
state. -/
theorem C7_window_contract_witness :
    ((10 : Nat) ≤ 10 ∧
      ∃ n, 4 = waitSum (fun _ => 2) n ∧
        10 = elapsedAfter 3 (fun _ => 2) (fun _ => 0) n ∧
        ∀ j, j < n → elapsedAfter 3 (fun _ => 2) (fun _ => 0) j < 10) ∧
    loopStep reconKK (LoopEvent.recvTimeout true ⟨0, 0⟩) =
      StepOut.next
        { total_time_waiting := reconKK.total_time_waiting + 1
          total_time_sampling := reconKK.total_time_sampling + 2
          contention_metric := fdivNat (reconKK.total_time_waiting + 1)
            (reconKK.total_time_sampling + 2)
          handle := none } false false :=
  C7_window_contract 10 3 5 4 10 (fun _ => 2) (fun _ => 0) reconKK ⟨1, 2⟩ ⟨0, 0⟩ rfl rfl

/-- C10: `is_running` is exactly `handle.is_some()`: it is `true` whenever a
handle is stored (regardless of whether the monitor thread has already
exited on its own — `m` is arbitrary, including already-finished threads),
`true` right after `start`, and `false` on the state `stop` produces, since
`stop` takes the handle before any join is confirmed. -/
theorem C10_is_running_iff_handle (kk : KnockKnock) (m : MonitorThread)
    (hh : kk.handle = some m) :
    (∀ kk2 : KnockKnock, kk2.is_running = kk2.handle.isSome) ∧
    kk.is_running = true ∧
    (∀ kk2 : KnockKnock, (kk2.start m).is_running = true) ∧
    (∃ warns, kk.stop = Except.ok ({ kk with handle := none, tx := false }, warns)) ∧
    KnockKnock.is_running { kk with handle := none, tx := false } = false := by
  refine ⟨fun kk2 => rfl, ?_, fun kk2 => rfl, ?_, rfl⟩
  · simp [KnockKnock.is_running, hh]
  · by_cases htx : kk.tx
    · exact ⟨stopLoop kk.timeout m 0 0, by simp [KnockKnock.stop, hh, htx]⟩
    · refine ⟨0, ?_⟩
      have htx2 : kk.tx = false := by simp [htx]
      simp [KnockKnock.stop, hh, htx2]

/-- C10 witness: the statement at a started `KnockKnock` whose monitor thread
has already exited on its own (`finishTime = 0`). -/
theorem C10_is_running_iff_handle_witness :
    (∀ kk2 : KnockKnock, kk2.is_running = kk2.handle.isSome) ∧
    (defaultKK.start ⟨0⟩).is_running = true ∧
    (∀ kk2 : KnockKnock, (kk2.start ⟨0⟩).is_running = true) ∧
    (∃ warns, (defaultKK.start ⟨0⟩).stop =
      Except.ok ({ defaultKK.start ⟨0⟩ with handle := none, tx := false }, warns)) ∧
    KnockKnock.is_running { defaultKK.start ⟨0⟩ with handle := none, tx := false } = false :=
  C10_is_running_iff_handle (defaultKK.start ⟨0⟩) ⟨0⟩ rfl

end Gilknocker
